import Mathlib

/-!
Verification of the `renderable` reactive-fragment framework.

The source under scrutiny is `renderable/router.py` and
`renderable/component.py`.  The modules `renderable/session.py`,
`renderable/state.py`, `renderable/context.py`, `renderable/htmx.py` and
`renderable/tags.py` are referenced by that code but their sources are not
available; every definition standing in for them is marked
`Modelled from the spec:` and follows the specification text.
-/

namespace Renderable

/-- A rendered HTML tag; only its serialised form matters here.
Modelled from the spec: the markup DSL is an external collaborator, a tag
is identified with the markup text its `html()` method returns. -/
structure Tag where
  html : String
deriving DecidableEq, Repr

/-- A state field.  Modelled from the spec: a StateField has a name, a
current value, and the set of fragment identifiers registered against it
(`renderable/state.py` is not in the sources). Values are kept abstract as
strings. -/
structure StateField where
  name : String
  value : String
  reloadIds : List String
deriving DecidableEq, Repr

/-- Modelled from the spec: `register(fragment_id)` adds the id to the
notification set, idempotently (`StateField.register_component_reload`
of the missing `renderable/state.py`). -/
def StateField.register_component_reload (f : StateField) (cid : String) : StateField :=
  if cid ∈ f.reloadIds then f else { f with reloadIds := f.reloadIds ++ [cid] }

/-- Modelled from the spec: a State is an ordered collection of StateFields
owned by one session; it also carries the Notification Channel through
which `session.state.enqueue` pushes fragment identifiers
(`renderable/state.py` is not in the sources). -/
structure State where
  fields : List StateField
  channel : List String
deriving DecidableEq, Repr

/-- Modelled from the spec: `enqueue(fragment_id)` pushes directly onto the
Notification Channel (FIFO), bypassing any StateField. -/
def State.enqueue (st : State) (cid : String) : State :=
  { st with channel := st.channel ++ [cid] }

/-- Configuration attributes the decorator stores on a component class
(`router.py` lines 300-304 set `_container_id`, `_url`, `_class`,
`_loader_class`, `_preload_content` on the class object itself). -/
structure ComponentClass where
  container_id : Option String
  url : String
  class_ : Option String
  loader_class : String
  has_preload_content : Bool
deriving DecidableEq, Repr

/-- A live component instance: it holds a reference to its class (whose
attributes carry the decorator configuration) and its Python object
identity `id(self)`. -/
structure Component where
  cls : ComponentClass
  pyId : Nat
deriving DecidableEq, Repr

/-- `Component.component_id`: `str(id(self))`. -/
def Component.component_id (c : Component) : String :=
  toString c.pyId

/-- `Component.container_id`:
`self._container_id or (self._id_prefix + self.component_id)` with
`_id_prefix = "cid_"`.  A `None` or empty-string `_container_id` is falsy
in Python, so the fallback applies. -/
def Component.container_id (c : Component) : String :=
  match c.cls.container_id with
  | some s => if s = "" then "cid_" ++ c.component_id else s
  | none => "cid_" ++ c.component_id

/-- A session.  Modelled from the spec: a Session owns an id (opaque
token), one optional State and one Component Registry mapping fragment
identifiers to live fragment objects (`renderable/session.py` is not in
the sources).  The registry key is the instance `component_id`, matching
the `?id=<component_id>` fragment URL built in `component.py` and looked
up by `load_component_instance` in `router.py`. -/
structure Session where
  id : String
  state : Option State
  registry : List (String × Component)
deriving DecidableEq, Repr

/-- Modelled from the spec: `add_component` inserts using the fragment
identifier; re-registering the same identifier replaces the prior
mapping. -/
def Session.add_component (s : Session) (c : Component) : Session :=
  { s with registry :=
      (c.component_id, c) :: s.registry.filter (fun p => p.1 ≠ c.component_id) }

/-- Modelled from the spec: `get_component(id)` returns the registered
fragment object, or nothing when the identifier is absent. -/
def Session.get_component (s : Session) (cid : String) : Option Component :=
  (s.registry.find? (fun p => p.1 == cid)).map (fun p => p.2)

/-- The process-wide Session Store.  Modelled from the spec: a mapping
from session token to Session; each session is keyed by its own id
(`renderable/session.py` is not in the sources). -/
abbrev SessionStore := List Session

/-- Modelled from the spec: Store lookup by token. -/
def SessionStorage.get_session (store : SessionStore) (sid : String) : Option Session :=
  List.find? (fun s => s.id == sid) store

/-- Modelled from the spec: Store creation — a fresh session with the
given (unguessable) token and the optional state is inserted. -/
def SessionStorage.create_session (store : SessionStore) (state : Option State)
    (freshId : String) : Session × SessionStore :=
  let s : Session := { id := freshId, state := state, registry := [] }
  (s, s :: store)

/-- Modelled from the spec: Store eviction by token. -/
def SessionStorage.delete_session (store : SessionStore) (sid : String) : SessionStore :=
  List.filter (fun s => s.id != sid) store

/-- One observed iteration of the Push Dispatcher loop in `sse_endpoint`
(`router.py` lines 130-135): the loop first polls `request.is_disconnected()`;
`disc` records that the poll returned true, `push cid` records that it
returned false and `session.get_updated_component_id()` then yielded
`cid`. -/
inductive DispStep where
  | disc : DispStep
  | push : String → DispStep
deriving DecidableEq, Repr

/-- The SSE text frame yielded for one consumed identifier
(`router.py` line 135). -/
def sseFrame (cid : String) : String :=
  "event: " ++ cid ++ "\ndata: -\n\n"

/-- The Push Dispatcher loop of `sse_endpoint` (`router.py` lines 130-135),
run over a finite trace of observed iterations.  Returns the store after
the run, the frames yielded in order, and whether the loop terminated
(`break`).  On a disconnect poll the session `sid` is deleted from the
store and the loop breaks before any further identifier is consumed. -/
def dispatcherRun : List DispStep → SessionStore → String →
    SessionStore × List String × Bool
  | [], store, _ => (store, [], false)
  | DispStep.disc :: _, store, sid =>
      (SessionStorage.delete_session store sid, [], true)
  | DispStep.push cid :: rest, store, sid =>
      let r := dispatcherRun rest store sid
      (r.1, sseFrame cid :: r.2.1, r.2.2)

/-- `Component.reload` (`component.py` lines 28-30): it fetches the ambient
session and runs `session.state.enqueue(self.container_id)`.  When the
session carries no state (`state is None`, as built by
`_get_or_create_session` for a router without `state_schema`), the
attribute access on `None` raises; the embedding returns `none` there. -/
def Component.reload (c : Component) (s : Session) : Option Session :=
  match s.state with
  | none => none
  | some st => some { s with state := some (st.enqueue c.container_id) }

/-- Python truthiness of an optional string: `None` and `""` are falsy. -/
def strTruthy : Option String → Bool
  | none => false
  | some s => !(s == "")

/-- Python `a or b` for an optional string `a` and a string default `b`. -/
def pyOr (a : Option String) (b : String) : String :=
  match a with
  | some s => if s = "" then b else s
  | none => b

/-- Whether a string starts with the given character. -/
def strStarts (s : String) (c : Char) : Bool :=
  s.data.head? == some c

/-- Whether a string ends with the given character. -/
def strEnds (s : String) (c : Char) : Bool :=
  s.data.getLast? == some c

/-- `os.path.join` restricted to the shapes the router uses (a second
component that is absolute replaces the first; otherwise a single slash
separates the two). -/
def pathJoin (a b : String) : String :=
  if strStarts b '/' then b
  else if strEnds a '/' then a ++ b
  else if a = "" then b
  else a ++ "/" ++ b

/-- A cookie as set by `response.set_cookie` in
`_get_or_create_session` (`router.py` lines 113-118). -/
structure Cookie where
  key : String
  value : String
  httponly : Bool
  max_age : Nat
deriving DecidableEq, Repr

/-- The router configuration relevant to the claims (`RenderableRouter.__init__`).
`loader_route_pfx` embeds the source attribute `_loader_route_prefix`. -/
structure RouterCfg where
  state_schema : Option State
  session_cookie_key : String
  session_cookie_max_age : Nat
  loader_class : String
  loader_route_pfx : String
deriving DecidableEq, Repr

/-- Outcome of `_get_or_create_session`: the resolved session, the store
afterwards, the cookie set on the response (if any), and the session
bound to `request.state.session` and to the ambient context. -/
structure SessionResolution where
  session : Session
  store : List Session
  cookieSet : Option Cookie
  requestSession : Session
  contextSession : Session
deriving DecidableEq, Repr

/-- `RenderableRouter._get_or_create_session` (`router.py` lines 95-120).
`cookieToken` is `request.cookies.get(key)`; `freshId` is the token the
Store would mint for a newly created session.  The Python function has no
raise path: resolution always produces a session (an unknown token is
recovered by creating a new session, never surfaced as an error). -/
def RenderableRouter.get_or_create_session (cfg : RouterCfg) (store : SessionStore)
    (cookieToken : Option String) (freshId : String) : SessionResolution :=
  let state := cfg.state_schema
  let looked : Option Session :=
    if strTruthy cookieToken then
      SessionStorage.get_session store (cookieToken.getD "")
    else none
  let pair : Session × SessionStore :=
    match looked with
    | some s => (s, store)
    | none => SessionStorage.create_session store state freshId
  let session := pair.1
  let cookieSet : Option Cookie :=
    if !strTruthy cookieToken || cookieToken != some session.id then
      some { key := cfg.session_cookie_key, value := session.id,
             httponly := true, max_age := cfg.session_cookie_max_age }
    else none
  { session := session, store := pair.2, cookieSet := cookieSet,
    requestSession := session, contextSession := session }

/-- Result of a successful `RenderableRouter.component` decoration: the
class configuration written by the `setattr` calls (`router.py` lines
300-304), the `reload_on` fields after registration, and the URL of the
route added by `add_api_route`. -/
structure DecResult where
  cls : ComponentClass
  fields : List StateField
  route_url : String
deriving DecidableEq, Repr

/-- The `RenderableRouter.component` decorator applied to a class
(`router.py` lines 275-335), restricted to its configuration effects.
`reload_on = []` covers both `None` and an empty list (both falsy).  The
`ValueError` raises happen before the `setattr` calls and before
`add_api_route`, so an error result carries no class configuration and no
route. -/
def RenderableRouter.component (cfg : RouterCfg) (id : Option String)
    (path pfx : Option String) (reload_on : List StateField)
    (class_ : Option String) (hasPreload : Bool) (clsName : String) :
    Except String DecResult :=
  let url := pathJoin (pyOr pfx cfg.loader_route_pfx) (pyOr path clsName)
  let mkRes : List StateField → DecResult := fun fs =>
    { cls := { container_id := id, url := url, class_ := class_,
               loader_class := cfg.loader_class,
               has_preload_content := hasPreload },
      fields := fs, route_url := url }
  if !reload_on.isEmpty then
    if !strTruthy id then
      Except.error "id must be specified if reload_on is used"
    else if cfg.state_schema.isNone then
      Except.error "state_schema must be set on the router if reload_on is used"
    else
      Except.ok (mkRes (reload_on.map
        (fun f => f.register_component_reload (id.getD ""))))
  else
    Except.ok (mkRes reload_on)

/-- The buffer right after `context.clear_root_tags()` at request entry
(`router.py` line 308). -/
def entryBuffer : List Tag := []

/-- The buffer after the optional `template()` call has appended its
markup to the freshly cleared buffer (`router.py` lines 310-311). -/
def templateRun (template : Option (List Tag → List Tag)) : List Tag :=
  match template with
  | some f => f entryBuffer
  | none => entryBuffer

/-- The view endpoint wrapper built by the decorator (`router.py` lines
306-324).  The request context carries the render-output buffer
(`root_tags`); `template` appends markup before the view runs, the view
transforms the buffer and may raise.  The result is the response
(rendered markup, or the propagated error) together with the buffer left
in the context at request exit (the `finally` clears it on both paths). -/
def viewEndpoint (template : Option (List Tag → List Tag))
    (view : List Tag → Except String (List Tag)) (_ctxBuffer : List Tag) :
    Except String String × List Tag :=
  match view (templateRun template) with
  | Except.ok t2 => (Except.ok (String.join (t2.map Tag.html)), [])
  | Except.error e => (Except.error e, [])

/-- The htmx attribute set (`renderable/htmx.py` is not in the sources).
Modelled from the spec and from the constructor keywords used in
`component.py` and `router.py`. -/
structure HTMX where
  url : Option String
  method : Option String
  include_ : Option String
  trigger : Option String
  ext : Option String
  sse_connect : Option String
deriving DecidableEq, Repr

/-- The container div opened by `Component.model_post_init`
(`component.py` lines 49-53). -/
structure ContainerDiv where
  id : String
  class_ : String
  hx : HTMX
deriving DecidableEq, Repr

/-- `Component.model_post_init` (`component.py` lines 32-55): registers
the instance in the ambient session and emits the container div whose
htmx attributes wire the fragment endpoint, the trigger set and the
include selector. -/
def Component.model_post_init (c : Component) (s : Session) :
    Session × ContainerDiv :=
  let s2 := s.add_component c
  let component_id := c.component_id
  let container_id := c.container_id
  let url := c.cls.url ++ "?id=" ++ component_id
  (s2,
   { id := container_id,
     class_ := c.cls.loader_class ++ " " ++ (c.cls.class_.getD ""),
     hx := { url := some url, method := some "post",
             include_ := some ("#" ++ container_id),
             trigger := some ("load, " ++ container_id ++ ", sse:" ++ container_id),
             ext := none, sse_connect := none } })

/-- The page body tag produced by `init_js_scripts` (`router.py` lines
213-217): it subscribes the whole page to the single SSE stream
endpoint of the session. -/
structure BodyTag where
  hx : HTMX
deriving DecidableEq, Repr

/-- `init_js_scripts` (`router.py` lines 203-217), restricted to the body
tag wiring. -/
def init_js_scripts (cfg : RouterCfg) : BodyTag :=
  { hx := { url := none, method := none, include_ := none, trigger := none,
            ext := some "sse",
            sse_connect := some (pathJoin cfg.loader_route_pfx "sse") } }

/-- A view method as `_replace_self` classifies it (`router.py` lines
147-172): either its signature has no `self` parameter, or it has one;
in the latter case `self` may resolve to `None` when the registry lookup
misses (Python passes the `None` returned by
`load_component_instance`). -/
inductive ViewMethod (α β : Type) where
  | noSelf : (α → β) → ViewMethod α β
  | withSelf : (Option Component → α → β) → ViewMethod α β

/-- `load_component_instance` (`router.py` lines 149-152): looks the `id`
query parameter up in the ambient session registry. -/
def load_component_instance (s : Session) (idParam : String) : Option Component :=
  s.get_component idParam

/-- `RenderableRouter._replace_self` (`router.py` lines 147-172) as the
serving behaviour of the returned callable: a method without `self` is
returned unchanged (its behaviour ignores session and query id); a method
with `self` gets `self` injected from the registry lookup at request
time. -/
def RenderableRouter.replace_self {α β : Type} :
    ViewMethod α β → Session → String → α → β
  | ViewMethod.noSelf f => fun _ _ a => f a
  | ViewMethod.withSelf f => fun s idParam a => f (load_component_instance s idParam) a

/-- Concrete fixtures used by witnesses and counterexamples. -/
def clsExplicit : ComponentClass :=
  { container_id := some "F2", url := "/__renderable__/Comp", class_ := none,
    loader_class := "__componentLoader__", has_preload_content := false }

/-- A concrete component instance of `clsExplicit`. -/
def compF2 : Component := { cls := clsExplicit, pyId := 7 }

/-- A concrete session without a State schema (as created by a router
with `state_schema = None`). -/
def sessionNoState : Session := { id := "s0", state := none, registry := [] }

/-- A concrete session holding an (empty) state. -/
def sessionWithState : Session :=
  { id := "s1", state := some { fields := [], channel := [] }, registry := [] }

/-- A concrete router configuration with no state schema. -/
def cfgNoSchema : RouterCfg :=
  { state_schema := none, session_cookie_key := "sid",
    session_cookie_max_age := 604800, loader_class := "__componentLoader__",
    loader_route_pfx := "/__renderable__" }

/-- A concrete router configuration with a state schema. -/
def cfgWithSchema : RouterCfg :=
  { cfgNoSchema with state_schema := some { fields := [], channel := [] } }

/-- A concrete state field with no registrations. -/
def fieldCount : StateField := { name := "count", value := "0", reloadIds := [] }

/-- The decoration result for `clsExplicit` under `cfgNoSchema` with
explicit id `F2`, path defaulted to the class name `Comp`. -/
def decCompResult : DecResult :=
  { cls := clsExplicit, fields := [], route_url := "/__renderable__/Comp" }

/-- A view function that always raises. -/
def viewBoom : List Tag → Except String (List Tag) :=
  fun _ => Except.error "boom"

/-- A stale buffer left by a hypothetical earlier request. -/
def staleBuffer : List Tag := [{ html := "stale" }]

theorem delete_session_get_none (store : SessionStore) (sid : String) :
    SessionStorage.get_session (SessionStorage.delete_session store sid) sid = none := by
  unfold SessionStorage.get_session SessionStorage.delete_session
  rw [List.find?_eq_none]
  intro s hs
  have h := (List.mem_filter.mp hs).2
  simp only [bne_iff_ne, ne_eq] at h
  simpa using h

/-- C1: in every iteration of the dispatcher the disconnect poll comes
first; when the poll observes a disconnect the session is removed from
the Store and the loop terminates, the store no longer resolves the
session id, and no identifier after the disconnect is emitted: the
output is exactly the frames of the identifiers consumed before the
disconnect. -/
theorem dispatcher_disconnect_evicts_and_stops
    (pre : List String) (post : List DispStep) (store : SessionStore) (sid : String) :
    dispatcherRun (pre.map DispStep.push ++ DispStep.disc :: post) store sid =
      (SessionStorage.delete_session store sid, pre.map sseFrame, true) ∧
    SessionStorage.get_session
      (dispatcherRun (pre.map DispStep.push ++ DispStep.disc :: post) store sid).1
      sid = none := by
  have hrun : dispatcherRun (pre.map DispStep.push ++ DispStep.disc :: post) store sid =
      (SessionStorage.delete_session store sid, pre.map sseFrame, true) := by
    induction pre with
    | nil => rfl
    | cons c cs ih =>
        simp [dispatcherRun, ih]
  refine ⟨hrun, ?_⟩
  rw [hrun]
  exact delete_session_get_none store sid

/-- C6: over any run in which the dispatcher consumes the identifiers
`ids` (in that order, no disconnect observed), the stream yields exactly
one frame per identifier, each of the exact form
`event: <id>\ndata: -\n\n`, in the exact consumption order. -/
theorem dispatcher_emits_frames_in_order
    (ids : List String) (store : SessionStore) (sid : String) :
    (dispatcherRun (ids.map DispStep.push) store sid).2.1 =
      ids.map (fun cid => "event: " ++ cid ++ "\ndata: -\n\n") := by
  induction ids with
  | nil => rfl
  | cons c cs ih => simp [dispatcherRun, ih, sseFrame]

/-- C2 counterexample: on the concrete session created without a State
schema (`state is None`), `Component.reload` does not enqueue anything —
the attribute access `session.state.enqueue` fails — refuting the claim
that the manual reload enqueues the container id for every session
including sessions without a State schema. -/
theorem reload_without_state_fails :
    sessionNoState.state = none ∧ Component.reload compF2 sessionNoState = none :=
  ⟨rfl, rfl⟩

/-- C2 (amended): on every session whose state is present, the manual
reload enqueues exactly the container id of the fragment itself, once, at
the tail of the Notification Channel; the state fields, the registry and
the session id are untouched. -/
theorem reload_enqueues_container_id_once (c : Component) (s : Session) (st : State)
    (h : s.state = some st) :
    Component.reload c s =
      some (Session.mk s.id
        (some (State.mk st.fields (st.channel ++ [c.container_id]))) s.registry) := by
  simp [Component.reload, h, State.enqueue]

/-- C2 witness: concrete run of the amended theorem. -/
theorem reload_enqueues_container_id_once_witness :
    Component.reload compF2 sessionWithState =
      some { id := "s1", state := some { fields := [], channel := ["F2"] },
             registry := [] } := by
  have h := reload_enqueues_container_id_once compF2 sessionWithState
    { fields := [], channel := [] } rfl
  simpa [sessionWithState, compF2, clsExplicit, Component.container_id,
    Component.component_id] using h

/-- C3: a request presenting no token (or an empty one), or presenting a
token unknown to the Store, silently gets a fresh session: it is created,
inserted into the Store, bound to `request.state.session` and to the
ambient context, and returned; the embedded `_get_or_create_session` is
total, so no error is surfaced to the caller. -/
theorem get_or_create_session_unknown_token_creates
    (cfg : RouterCfg) (store : SessionStore) (tok : Option String) (freshId : String)
    (h : tok = none ∨ ∃ t, tok = some t ∧ SessionStorage.get_session store t = none) :
    (RenderableRouter.get_or_create_session cfg store tok freshId).session =
      { id := freshId, state := cfg.state_schema, registry := [] } ∧
    (RenderableRouter.get_or_create_session cfg store tok freshId).store =
      { id := freshId, state := cfg.state_schema, registry := [] } :: store ∧
    (RenderableRouter.get_or_create_session cfg store tok freshId).requestSession =
      (RenderableRouter.get_or_create_session cfg store tok freshId).session ∧
    (RenderableRouter.get_or_create_session cfg store tok freshId).contextSession =
      (RenderableRouter.get_or_create_session cfg store tok freshId).session := by
  rcases h with rfl | ⟨t, rfl, hnone⟩
  · simp [RenderableRouter.get_or_create_session, strTruthy,
      SessionStorage.create_session]
  · by_cases ht : t = ""
    · subst ht
      simp [RenderableRouter.get_or_create_session, strTruthy,
        SessionStorage.create_session]
    · simp [RenderableRouter.get_or_create_session, strTruthy, ht, hnone,
        SessionStorage.create_session]

/-- C3 witness: a concrete unknown token yields a fresh session. -/
theorem get_or_create_session_unknown_token_creates_witness :
    (RenderableRouter.get_or_create_session cfgNoSchema [] (some "deadbeef") "fresh1").session =
      { id := "fresh1", state := none, registry := [] } ∧
    (RenderableRouter.get_or_create_session cfgNoSchema [] (some "deadbeef") "fresh1").store =
      [{ id := "fresh1", state := none, registry := [] }] := by
  have h := get_or_create_session_unknown_token_creates cfgNoSchema []
    (some "deadbeef") "fresh1" (Or.inr ⟨"deadbeef", rfl, rfl⟩)
  exact ⟨by simpa [cfgNoSchema] using h.1, by simpa [cfgNoSchema] using h.2.1⟩

theorem gocs_not_truthy (cfg : RouterCfg) (store : SessionStore)
    (tok : Option String) (freshId : String) (h : strTruthy tok = false) :
    RenderableRouter.get_or_create_session cfg store tok freshId =
      { session := { id := freshId, state := cfg.state_schema, registry := [] },
        store := { id := freshId, state := cfg.state_schema, registry := [] } :: store,
        cookieSet := some { key := cfg.session_cookie_key, value := freshId,
                            httponly := true, max_age := cfg.session_cookie_max_age },
        requestSession := { id := freshId, state := cfg.state_schema, registry := [] },
        contextSession := { id := freshId, state := cfg.state_schema, registry := [] } } := by
  simp [RenderableRouter.get_or_create_session, h, SessionStorage.create_session]

theorem gocs_truthy_miss (cfg : RouterCfg) (store : SessionStore)
    (tok : Option String) (freshId : String) (h : strTruthy tok = true)
    (hm : SessionStorage.get_session store (tok.getD "") = none) :
    RenderableRouter.get_or_create_session cfg store tok freshId =
      { session := { id := freshId, state := cfg.state_schema, registry := [] },
        store := { id := freshId, state := cfg.state_schema, registry := [] } :: store,
        cookieSet := if tok != some freshId then
            some { key := cfg.session_cookie_key, value := freshId,
                   httponly := true, max_age := cfg.session_cookie_max_age }
          else none,
        requestSession := { id := freshId, state := cfg.state_schema, registry := [] },
        contextSession := { id := freshId, state := cfg.state_schema, registry := [] } } := by
  simp [RenderableRouter.get_or_create_session, h, hm, SessionStorage.create_session]

theorem gocs_truthy_hit (cfg : RouterCfg) (store : SessionStore)
    (tok : Option String) (freshId : String) (s : Session) (h : strTruthy tok = true)
    (hs : SessionStorage.get_session store (tok.getD "") = some s) :
    RenderableRouter.get_or_create_session cfg store tok freshId =
      { session := s, store := store,
        cookieSet := if tok != some s.id then
            some { key := cfg.session_cookie_key, value := s.id,
                   httponly := true, max_age := cfg.session_cookie_max_age }
          else none,
        requestSession := s, contextSession := s } := by
  simp [RenderableRouter.get_or_create_session, h, hs]

theorem get_session_id_eq (store : SessionStore) (sid : String) (s : Session)
    (h : SessionStorage.get_session store sid = some s) : s.id = sid := by
  unfold SessionStorage.get_session at h
  have := List.find?_some h
  simpa using this

/-- C8: the session cookie is set exactly when the request carried no
(truthy) token or the presented token differs from the resolved session
id; a set cookie carries the session id as its value, is http-only, and
has the configured max-age and key; a presented token that matches the
resolved session id causes no cookie to be re-set. -/
theorem session_cookie_policy (cfg : RouterCfg) (store : SessionStore)
    (tok : Option String) (freshId : String) (hf : freshId ≠ "") :
    ((RenderableRouter.get_or_create_session cfg store tok freshId).cookieSet ≠ none ↔
      (tok = none ∨
        tok ≠ some (RenderableRouter.get_or_create_session cfg store tok freshId).session.id)) ∧
    (∀ ck, (RenderableRouter.get_or_create_session cfg store tok freshId).cookieSet = some ck →
      ck.key = cfg.session_cookie_key ∧
      ck.value = (RenderableRouter.get_or_create_session cfg store tok freshId).session.id ∧
      ck.httponly = true ∧
      ck.max_age = cfg.session_cookie_max_age) := by
  cases tok with
  | none =>
      rw [gocs_not_truthy cfg store none freshId rfl]
      constructor
      · simp
      · intro ck hck
        have hck2 := Option.some.inj hck
        subst hck2
        exact ⟨rfl, rfl, rfl, rfl⟩
  | some t =>
      by_cases ht : t = ""
      · subst ht
        rw [gocs_not_truthy cfg store (some "") freshId rfl]
        constructor
        · simp [Ne.symm hf]
        · intro ck hck
          have hck2 := Option.some.inj hck
          subst hck2
          exact ⟨rfl, rfl, rfl, rfl⟩
      · have htr : strTruthy (some t) = true := by simp [strTruthy, ht]
        cases hs : SessionStorage.get_session store ((some t).getD "") with
        | none =>
            rw [gocs_truthy_miss cfg store (some t) freshId htr hs]
            by_cases hEq : t = freshId
            · subst hEq
              constructor
              · simp
              · intro ck hck
                simp at hck
            · constructor
              · simp [hEq]
              · intro ck hck
                rw [if_pos (by simp [hEq])] at hck
                have hck2 := Option.some.inj hck
                subst hck2
                exact ⟨rfl, rfl, rfl, rfl⟩
        | some s =>
            have hsid : s.id = t := get_session_id_eq store t s hs
            rw [gocs_truthy_hit cfg store (some t) freshId s htr hs]
            constructor
            · simp [hsid]
            · intro ck hck
              rw [if_neg (by simp [hsid])] at hck
              simp at hck

/-- C8 witness: a request with no token gets an http-only cookie with the
configured max-age carrying the fresh session id. -/
theorem session_cookie_policy_witness :
    ((RenderableRouter.get_or_create_session cfgNoSchema [] none "fresh1").cookieSet ≠ none) ∧
    (∀ ck, (RenderableRouter.get_or_create_session cfgNoSchema [] none "fresh1").cookieSet =
        some ck → ck.httponly = true ∧ ck.max_age = cfgNoSchema.session_cookie_max_age) := by
  have h := session_cookie_policy cfgNoSchema [] none "fresh1" (by decide)
  exact ⟨h.1.mpr (Or.inl rfl),
    fun ck hck => ⟨(h.2 ck hck).2.2.1, (h.2 ck hck).2.2.2⟩⟩

theorem register_component_reload_mem (f : StateField) (cid : String) :
    cid ∈ (f.register_component_reload cid).reloadIds := by
  unfold StateField.register_component_reload
  by_cases h : cid ∈ f.reloadIds
  · simp [h]
  · simp [h]

/-- C4: with a non-empty `reload_on`, the decorator fails before adding a
route (the error result carries no configuration) when no truthy id is
given or when the router has no `state_schema`; when an id and a schema
are both present it succeeds and every listed StateField ends up with the
component id registered against it. -/
theorem component_reload_on_registration (cfg : RouterCfg) (id : Option String)
    (path pfx : Option String) (reload_on : List StateField)
    (class_ : Option String) (hasPreload : Bool) (clsName : String)
    (hne : reload_on ≠ []) :
    (strTruthy id = false →
      RenderableRouter.component cfg id path pfx reload_on class_ hasPreload clsName =
        Except.error "id must be specified if reload_on is used") ∧
    (strTruthy id = true → cfg.state_schema = none →
      RenderableRouter.component cfg id path pfx reload_on class_ hasPreload clsName =
        Except.error "state_schema must be set on the router if reload_on is used") ∧
    (∀ i, id = some i → strTruthy id = true →
      ∀ sch, cfg.state_schema = some sch →
      ∃ r, RenderableRouter.component cfg id path pfx reload_on class_ hasPreload clsName =
          Except.ok r ∧
        r.fields = reload_on.map (fun f => f.register_component_reload i) ∧
        ∀ g ∈ r.fields, i ∈ g.reloadIds) := by
  have hempty : reload_on.isEmpty = false := by
    cases reload_on with
    | nil => exact absurd rfl hne
    | cons a l => rfl
  refine ⟨?_, ?_, ?_⟩
  · intro hid
    simp [RenderableRouter.component, hempty, hid]
  · intro hid hschema
    simp [RenderableRouter.component, hempty, hid, hschema]
  · rintro i rfl hid sch hschema
    refine ⟨DecResult.mk
      (ComponentClass.mk (some i)
        (pathJoin (pyOr pfx cfg.loader_route_pfx) (pyOr path clsName))
        class_ cfg.loader_class hasPreload)
      (reload_on.map (fun f => f.register_component_reload i))
      (pathJoin (pyOr pfx cfg.loader_route_pfx) (pyOr path clsName)),
      ?_, rfl, ?_⟩
    · simp [RenderableRouter.component, hempty, hid, hschema]
    · intro g hg
      rcases List.mem_map.mp hg with ⟨f, _, rfl⟩
      exact register_component_reload_mem f i

/-- C4 witness: concrete successful registration. -/
theorem component_reload_on_registration_witness :
    ∃ r, RenderableRouter.component cfgWithSchema (some "F1") none none [fieldCount]
        none false "Counter" = Except.ok r ∧
      r.fields = [fieldCount].map (fun f => f.register_component_reload "F1") ∧
      ∀ g ∈ r.fields, "F1" ∈ g.reloadIds := by
  have h := (component_reload_on_registration cfgWithSchema (some "F1") none none
    [fieldCount] none false "Counter" (List.cons_ne_nil _ _)).2.2 "F1" rfl
    (by decide) { fields := [], channel := [] } rfl
  exact h

/-- C5: the render-output buffer is reset at request entry (the endpoint
result is independent of whatever buffer the context held before) and is
empty again at request exit on the success path and on the raising path
alike; a raising view surfaces as the error result of that request. -/
theorem view_endpoint_buffer_cleared (template : Option (List Tag → List Tag))
    (view : List Tag → Except String (List Tag)) (ctx : List Tag) :
    (viewEndpoint template view ctx).2 = [] ∧
    viewEndpoint template view ctx = viewEndpoint template view [] ∧
    (∀ e, view (templateRun template) = Except.error e →
      (viewEndpoint template view ctx).1 = Except.error e) := by
  refine ⟨?_, rfl, ?_⟩
  · unfold viewEndpoint
    cases view (templateRun template) <;> rfl
  · intro e he
    unfold viewEndpoint
    rw [he]

/-- C5 witness: a raising view on a template-free endpoint with a stale
buffer: the response is the error and the buffer is cleared. -/
theorem view_endpoint_buffer_cleared_witness :
    (viewEndpoint none viewBoom staleBuffer).2 = [] ∧
    (viewEndpoint none viewBoom staleBuffer).1 = Except.error "boom" := by
  have h := view_endpoint_buffer_cleared none viewBoom staleBuffer
  exact ⟨h.1, h.2.2 "boom" rfl⟩

/-- C7: the emitted container div carries (1) the fragment endpoint URL
with the instance id as the `id` query parameter, (2) the trigger set of
page load, the manual trigger named by the container id, and the stream
event `sse:<container_id>`, and is itself identified by the container id;
the page scaffold subscribes the body to the single session stream
endpoint. -/
theorem container_div_wiring (c : Component) (s : Session) (cfg : RouterCfg) :
    (c.model_post_init s).2.hx.url = some (c.cls.url ++ "?id=" ++ c.component_id) ∧
    (c.model_post_init s).2.hx.trigger =
      some ("load, " ++ c.container_id ++ ", sse:" ++ c.container_id) ∧
    (c.model_post_init s).2.id = c.container_id ∧
    (init_js_scripts cfg).hx.ext = some "sse" ∧
    (init_js_scripts cfg).hx.sse_connect = some (pathJoin cfg.loader_route_pfx "sse") :=
  ⟨rfl, rfl, rfl, rfl, rfl⟩

/-- C9: a successful decoration stores the configuration on the class
record shared by all instances; two instances of the decorated class have
the same class configuration, instances of a class with a truthy explicit
id share the identical container id, and an instance of a class without
an explicit id has container id `cid_` followed by its object identity. -/
theorem component_config_on_class (cfg : RouterCfg) (id : Option String)
    (path pfx : Option String) (reload_on : List StateField)
    (class_ : Option String) (hasPreload : Bool) (clsName : String)
    (r : DecResult)
    (hok : RenderableRouter.component cfg id path pfx reload_on class_
      hasPreload clsName = Except.ok r) :
    r.cls.container_id = id ∧
    r.cls.class_ = class_ ∧
    r.cls.loader_class = cfg.loader_class ∧
    r.cls.has_preload_content = hasPreload ∧
    (∀ c1 c2 : Component, c1.cls = r.cls → c2.cls = r.cls → c1.cls = c2.cls) ∧
    (∀ c1 c2 : Component, c1.cls = r.cls → c2.cls = r.cls →
      ∀ i, id = some i → i ≠ "" → c1.container_id = c2.container_id) ∧
    (∀ c : Component, c.cls = r.cls → id = none →
      c.container_id = "cid_" ++ toString c.pyId) := by
  have hcls : r.cls = ComponentClass.mk id
      (pathJoin (pyOr pfx cfg.loader_route_pfx) (pyOr path clsName))
      class_ cfg.loader_class hasPreload := by
    unfold RenderableRouter.component at hok
    by_cases hemp : reload_on.isEmpty
    · rw [if_neg (by simp [hemp])] at hok
      have h2 := Except.ok.inj hok
      rw [← h2]
    · rw [if_pos (by simp [hemp])] at hok
      by_cases hid : strTruthy id
      · rw [if_neg (by simp [hid])] at hok
        by_cases hsch : cfg.state_schema.isNone
        · rw [if_pos hsch] at hok
          exact Except.noConfusion hok
        · rw [if_neg hsch] at hok
          have h2 := Except.ok.inj hok
          rw [← h2]
      · rw [if_pos (by simp [hid])] at hok
        exact Except.noConfusion hok
  refine ⟨by rw [hcls], by rw [hcls], by rw [hcls], by rw [hcls], ?_, ?_, ?_⟩
  · intro c1 c2 h1 h2
    rw [h1, h2]
  · intro c1 c2 h1 h2 i hi hne
    simp [Component.container_id, h1, h2, hcls, hi, hne]
  · intro c hc hid
    simp [Component.container_id, Component.component_id, hc, hcls, hid]

/-- C9 witness: concrete decoration with explicit id `F2`; two instances
with different object identities share the container id. -/
theorem component_config_on_class_witness :
    decCompResult.cls.container_id = some "F2" ∧
    ({ cls := decCompResult.cls, pyId := 1 } : Component).container_id =
      ({ cls := decCompResult.cls, pyId := 2 } : Component).container_id := by
  have h := component_config_on_class cfgNoSchema (some "F2") none none []
    none false "Comp" decCompResult rfl
  exact ⟨h.1, h.2.2.2.2.2.1 _ _ rfl rfl "F2" rfl (by decide)⟩

theorem get_component_add_component (s : Session) (c : Component) :
    (s.add_component c).get_component c.component_id = some c := by
  unfold Session.add_component Session.get_component
  rw [List.find?_cons_of_pos]
  · rfl
  · simp

/-- C10: serving a view method that declares `self` resolves `self` at
request time from the ambient session registry under the `id` query
parameter — the instance passed to the view is exactly the registered
fragment object; a view without `self` is served unchanged, independent
of the session and of the query id. -/
theorem replace_self_serving (α β : Type) :
    (∀ (f : Option Component → α → β) (s : Session) (c : Component) (a : α),
      RenderableRouter.replace_self (ViewMethod.withSelf f) (s.add_component c)
        c.component_id a = f (some c) a) ∧
    (∀ (g : α → β) (s1 s2 : Session) (i1 i2 : String) (a : α),
      RenderableRouter.replace_self (ViewMethod.noSelf g) s1 i1 a = g a ∧
      RenderableRouter.replace_self (ViewMethod.noSelf g) s1 i1 a =
        RenderableRouter.replace_self (ViewMethod.noSelf g) s2 i2 a) := by
  refine ⟨?_, ?_⟩
  · intro f s c a
    simp [RenderableRouter.replace_self, load_component_instance,
      get_component_add_component]
  · intro g s1 s2 i1 i2 a
    exact ⟨rfl, rfl⟩

end Renderable
